import Mathlib

/-!
Shallow embedding of the MediRisk heart-disease demo app (`src/app.py`)
and verification of its specification.

Numeric values (Python floats constrained by the UI widgets) are embedded
as rationals `ℚ`; categorical inputs stay as `String`.  Fallible Python
code (attribute access on external model objects, `numpy` indexing,
`predict_proba` calls) is embedded with `Option`: `none` models a raised
exception.
-/

namespace MediRisk

/-- Constant `FEATURE_COLUMNS` from `app.py`: the fixed training-time column order. -/
def FEATURE_COLUMNS : List String :=
  ["age", "sex", "cp", "trestbps", "chol",
   "fbs", "restecg", "thalach", "exang",
   "oldpeak", "slope", "ca", "thal"]

/-- The `cp_map` dictionary of `preprocess_inputs` together with the
`.get(cp, 4)` default used on lookup. -/
def cp_map (s : String) : ℚ :=
  if s = "Typical Angina" then 1
  else if s = "Atypical Angina" then 2
  else if s = "Non-anginal Pain" then 3
  else if s = "Asymptomatic" then 4
  else 4

/-- The `restecg_map` dictionary together with the `.get(restecg, 0)` default. -/
def restecg_map (s : String) : ℚ :=
  if s = "Normal" then 0
  else if s = "ST-T abnormality" then 1
  else if s = "LV hypertrophy" then 2
  else 0

/-- The `slope_map` dictionary together with the `.get(slope, 2)` default. -/
def slope_map (s : String) : ℚ :=
  if s = "Upsloping" then 1
  else if s = "Flat" then 2
  else if s = "Downsloping" then 3
  else 2

/-- The `thal_map` dictionary together with the `.get(thal, 3)` default. -/
def thal_map (s : String) : ℚ :=
  if s = "Normal" then 3
  else if s = "Fixed Defect" then 6
  else if s = "Reversible Defect" then 7
  else 3

/-- Function `preprocess_inputs` from `app.py`: encodes the raw form values into the
13-element feature row (the single row of the returned `DataFrame`, whose
columns are `FEATURE_COLUMNS`). -/
def preprocess_inputs (age : ℚ) (gender cp : String) (trestbps chol glucose : ℚ)
    (restecg : String) (thalach : ℚ) (exang : String) (oldpeak : ℚ)
    (slope : String) (ca : ℚ) (thal : String) : List ℚ :=
  let sex : ℚ := if gender = "Male" then 1 else 0
  let fbs : ℚ := if glucose > 120 then 1 else 0
  let exangN : ℚ := if exang = "Yes" then 1 else 0
  [age, sex, cp_map cp, trestbps, chol,
   fbs, restecg_map restecg, thalach, exangN,
   oldpeak, slope_map slope, ca, thal_map thal]

/-- Function `categorize_risk` from `app.py`. -/
def categorize_risk (prob : ℚ) : String :=
  if prob < 0.4 then "LOW"
  else if prob < 0.7 then "MODERATE"
  else "HIGH"

/-- A loaded scikit-learn object as `app.py` observes it through duck typing:
`named_steps` (present on `Pipeline` objects, a dict from step name to inner
object), `feature_importances_` (tree ensembles), `coef_` (linear models, a
2-D array whose row 0 is read), and the `predict_proba` method, whose result
— or raised exception — is an oracle of the external artifact (`none` models
a raise). -/
inductive PyModel : Type where
  | mk (named_steps : Option (List (String × PyModel)))
       (feature_importances : Option (List ℚ))
       (coef : Option (List (List ℚ)))
       (predict_proba : List ℚ → Option (List (List ℚ)))

/-- Attribute view of `hasattr(model, "named_steps")`: the dict, when present. -/
def PyModel.named_steps : PyModel → Option (List (String × PyModel))
  | .mk ns _ _ _ => ns

/-- Attribute view of `hasattr(inner, "feature_importances_")`: the vector, when present. -/
def PyModel.feature_importances : PyModel → Option (List ℚ)
  | .mk _ fi _ _ => fi

/-- Attribute view of `hasattr(inner, "coef_")`: the coefficient rows, when present. -/
def PyModel.coef : PyModel → Option (List (List ℚ))
  | .mk _ _ c _ => c

/-- The model's `predict_proba` call on one encoded row. -/
def PyModel.predict_proba : PyModel → List ℚ → Option (List (List ℚ))
  | .mk _ _ _ pp => pp

/-- Function `predict_risk` from `app.py`:
`float(model.predict_proba(input_df)[0][1])`; a raise inside `predict_proba`
or an out-of-range index propagates as `none`. -/
def predict_risk (model : PyModel) (input_df : List ℚ) : Option ℚ :=
  (model.predict_proba input_df).bind fun res =>
    (res.get? 0).bind fun row => row.get? 1

/-- The ordering used by `sorted(feature_dict.items(), key=lambda x: x[1],
reverse=True)`: descending by the importance value. -/
def impGE (a b : String × ℚ) : Prop := b.2 ≤ a.2

instance : DecidableRel impGE := fun a b => inferInstanceAs (Decidable (b.2 ≤ a.2))

instance : IsTotal (String × ℚ) impGE := ⟨fun a b => le_total b.2 a.2⟩

instance : IsTrans (String × ℚ) impGE := ⟨fun _ _ _ h1 h2 => le_trans h2 h1⟩

/-- Python's `sorted(..., key=lambda x: x[1], reverse=True)`: a stable sort,
descending in the second component. -/
def sortDesc (l : List (String × ℚ)) : List (String × ℚ) :=
  List.insertionSort impGE l

/-- The `inner` unwrapping at the top of `extract_feature_importance`:
`model.named_steps.get("model", model)` when the handle has `named_steps`,
the handle itself otherwise. -/
def unwrap (model : PyModel) : PyModel :=
  match model.named_steps with
  | some ns => (ns.lookup "model").getD model
  | none => model

/-- The `importance` vector computed by `extract_feature_importance` before
zipping with the feature names: native importances if present, else
L1-normalized absolute coefficients of row 0 of `coef_` (`none` when `coef_`
has no rows, modelling the `IndexError` of `coef_[0]`), else
`np.zeros(len(FEATURE_COLUMNS))`. -/
def importance_of (inner : PyModel) : Option (List ℚ) :=
  match inner.feature_importances with
  | some fi => some fi
  | none =>
    match inner.coef with
    | some rows =>
      match rows with
      | [] => none
      | c0 :: _ =>
        let a := c0.map (fun x => |x|)
        some (a.map (fun x => x / a.sum))
    | none => some (List.replicate FEATURE_COLUMNS.length 0)

/-- Function `extract_feature_importance` from `app.py`: unwrap the pipeline, build
the importance vector, zip it with `FEATURE_COLUMNS` and sort the pairs by
descending importance (the insertion order of the returned dict). -/
def extract_feature_importance (model : PyModel) : Option (List (String × ℚ)) :=
  (importance_of (unwrap model)).map fun importance =>
    sortDesc (FEATURE_COLUMNS.zip importance)

/-- The three `st.session_state` fields initialized in `app.py` lines 22-27. -/
structure SessionState where
  analysis_run : Bool
  risk_prob : ℚ
  feature_imp : List (String × ℚ)
deriving DecidableEq

/-- The initial session state: `analysis_run = False`, `risk_prob = 0.0`,
`feature_imp = {}`. -/
def initState : SessionState := ⟨false, 0, []⟩

/-- The body of the "Run Risk Assessment" button handler (`app.py` lines
237-264): look up the selected model (`st.stop()` with an error when it is
missing), encode the inputs, predict and extract importance inside the
`try` block (`st.stop()` with "Prediction failed." when either raises), and
only on success overwrite the three session-state fields, truncating the
importance dict to its first 5 items.  Returns the new state and the error
message shown, if any. -/
def run_handler (all_models : List (String × PyModel)) (model_name : String)
    (age : ℚ) (gender cp : String) (trestbps chol glucose : ℚ)
    (restecg : String) (thalach : ℚ) (exang : String) (oldpeak : ℚ)
    (slope : String) (ca : ℚ) (thal : String)
    (s : SessionState) : SessionState × Option String :=
  match all_models.lookup model_name with
  | none => (s, some "Model not loaded properly.")
  | some model =>
    let input_df := preprocess_inputs age gender cp trestbps chol glucose
      restecg thalach exang oldpeak slope ca thal
    match predict_risk model input_df, extract_feature_importance model with
    | some prob, some importance =>
      ({ analysis_run := true, risk_prob := prob,
         feature_imp := importance.take 5 }, none)
    | _, _ => (s, some "Prediction failed.")

/-- One user interaction in a Streamlit session: either a widget change
(`interact`, which reruns the script but never enters the button branch, so
the session state is untouched) or a press of "Run Risk Assessment" with the
current form values. -/
inductive Action : Type where
  | interact
  | run (model_name : String) (age : ℚ) (gender cp : String)
        (trestbps chol glucose : ℚ) (restecg : String) (thalach : ℚ)
        (exang : String) (oldpeak : ℚ) (slope : String) (ca : ℚ) (thal : String)

/-- The session-state transition of one user action: `interact` leaves the
state alone; `run` executes the button handler. -/
def step (all_models : List (String × PyModel)) (a : Action)
    (s : SessionState) : SessionState :=
  match a with
  | .interact => s
  | .run name age gender cp trestbps chol glucose restecg thalach exang
        oldpeak slope ca thal =>
    (run_handler all_models name age gender cp trestbps chol glucose restecg
      thalach exang oldpeak slope ca thal s).1

/-- Whether an action is a run that completes without an error message
(model found, prediction and importance extraction both succeed). -/
def runSucceeds (all_models : List (String × PyModel)) (a : Action) : Bool :=
  match a with
  | .interact => false
  | .run name age gender cp trestbps chol glucose restecg thalach exang
        oldpeak slope ca thal =>
    (run_handler all_models name age gender cp trestbps chol glucose restecg
      thalach exang oldpeak slope ca thal initState).2.isNone

/-- A whole session: the models are loaded once at start, the state begins
at `initState`, and the user's actions are folded through `step`. -/
def runSession (all_models : List (String × PyModel))
    (acts : List Action) : SessionState :=
  acts.foldl (fun s a => step all_models a s) initState

/-- A loaded object exposing neither `named_steps`, `feature_importances_`
nor `coef_`, whose `predict_proba` raises: the degenerate end of the
extractor's fallback chain. -/
def noneModel : PyModel := .mk none none none (fun _ => none)

/-- A tree-ensemble-shaped handle: native `feature_importances_` of length
13, nonnegative entries. -/
def treeFi : List ℚ := [13, 12, 11, 10, 9, 8, 7, 6, 5, 4, 3, 2, 1]

/-- A handle exposing native importances, like the loaded random forest. -/
def treeModel : PyModel := .mk none (some treeFi) none (fun _ => none)

/-- A 13-entry coefficient row with some nonzero entries. -/
def linCoef : List ℚ := [1, -1, 2, 0, 0, 0, 0, 0, 0, 0, 0, 0, 0]

/-- A linear-model-shaped handle: `coef_` with one row, no native
importances. -/
def linearModel : PyModel := .mk none none (some [linCoef]) (fun _ => none)

/-- A linear-model-shaped handle whose coefficient row is identically zero:
it reaches the L1-normalization branch with a zero denominator. -/
def zeroLinearModel : PyModel :=
  .mk none none (some [List.replicate 13 0]) (fun _ => none)

/-- A handle whose `predict_proba` succeeds with class probabilities
`[0, 1]` and which carries native importances. -/
def okModel : PyModel := .mk none (some treeFi) none (fun _ => some [[0, 1]])

/-- C1: for every probability `p`, `categorize_risk` is the pure step
function with thresholds 0.40 and 0.70: `p < 0.40` yields LOW,
`0.40 ≤ p < 0.70` yields MODERATE, `0.70 ≤ p` yields HIGH; in particular
0.39 yields LOW, 0.40 MODERATE, 0.69 MODERATE and 0.70 HIGH. -/
theorem categorize_risk_step_function :
    (∀ p : ℚ,
      (categorize_risk p = "LOW" ↔ p < 0.4) ∧
      (categorize_risk p = "MODERATE" ↔ 0.4 ≤ p ∧ p < 0.7) ∧
      (categorize_risk p = "HIGH" ↔ 0.7 ≤ p)) ∧
    categorize_risk 0.39 = "LOW" ∧
    categorize_risk 0.4 = "MODERATE" ∧
    categorize_risk 0.69 = "MODERATE" ∧
    categorize_risk 0.7 = "HIGH" := by
  refine ⟨fun p => ?_, by norm_num [categorize_risk],
    by norm_num [categorize_risk], by norm_num [categorize_risk],
    by norm_num [categorize_risk]⟩
  unfold categorize_risk
  split_ifs with h1 h2
  · exact ⟨iff_of_true rfl h1,
      iff_of_false (by decide) (fun h => absurd h1 (not_lt.mpr h.1)),
      iff_of_false (by decide) (fun h => by linarith)⟩
  · exact ⟨iff_of_false (by decide) h1,
      iff_of_true rfl ⟨not_lt.mp h1, h2⟩,
      iff_of_false (by decide) (fun h => absurd h2 (not_lt.mpr h))⟩
  · exact ⟨iff_of_false (by decide) h1,
      iff_of_false (by decide) (fun h => absurd h.2 h2),
      iff_of_true rfl (not_lt.mp h2)⟩

/-- C2: on the inputs of end-to-end scenario 1 (age 45, Male, Typical
Angina, trestbps 120, chol 190, glucose 100, Normal ECG, thalach 150, no
exercise angina, oldpeak 1.0, Upsloping, ca 0, Normal thal), the encoder
produces the vector `[45, 1, 1, 120, 190, 0, 0, 150, 0, 1.0, 1, 0, 3]` in
the fixed column order of `FEATURE_COLUMNS`. -/
theorem preprocess_scenario1 :
    preprocess_inputs 45 "Male" "Typical Angina" 120 190 100 "Normal" 150
        "No" 1.0 "Upsloping" 0 "Normal" =
      [45, 1, 1, 120, 190, 0, 0, 150, 0, 1.0, 1, 0, 3] ∧
    FEATURE_COLUMNS = ["age", "sex", "cp", "trestbps", "chol", "fbs",
      "restecg", "thalach", "exang", "oldpeak", "slope", "ca", "thal"] := by
  constructor
  · norm_num [preprocess_inputs, cp_map, restecg_map, slope_map, thal_map]
    decide
  · decide

/-- C3: the fasting-blood-sugar flag (position 5 of the encoded vector) is
1 iff glucose is strictly greater than 120 and 0 otherwise, for every
combination of the other inputs; in particular glucose 150 gives flag 1 and
glucose 120 gives flag 0. -/
theorem preprocess_fbs_flag :
    (∀ (age : ℚ) (gender cp : String) (trestbps chol glucose : ℚ)
        (restecg : String) (thalach : ℚ) (exang : String) (oldpeak : ℚ)
        (slope : String) (ca : ℚ) (thal : String),
      ((preprocess_inputs age gender cp trestbps chol glucose restecg thalach
          exang oldpeak slope ca thal).get? 5 = some 1 ↔ 120 < glucose) ∧
      ((preprocess_inputs age gender cp trestbps chol glucose restecg thalach
          exang oldpeak slope ca thal).get? 5 = some 0 ↔ glucose ≤ 120)) ∧
    (preprocess_inputs 45 "Male" "Typical Angina" 120 190 150 "Normal" 150
        "No" 1 "Upsloping" 0 "Normal").get? 5 = some 1 ∧
    (preprocess_inputs 45 "Male" "Typical Angina" 120 190 120 "Normal" 150
        "No" 1 "Upsloping" 0 "Normal").get? 5 = some 0 := by
  refine ⟨?_, by decide, by decide⟩
  intro age gender cp trestbps chol glucose restecg thalach exang oldpeak
    slope ca thal
  have hget : (preprocess_inputs age gender cp trestbps chol glucose restecg
      thalach exang oldpeak slope ca thal).get? 5
      = some (if glucose > 120 then (1 : ℚ) else 0) := rfl
  rcases lt_or_le (120 : ℚ) glucose with h | h
  · rw [hget, if_pos h]
    exact ⟨iff_of_true rfl h, iff_of_false (by simp) (not_le.mpr h)⟩
  · rw [hget, if_neg (not_lt.mpr h)]
    exact ⟨iff_of_false (by simp) (not_lt.mpr h), iff_of_true rfl h⟩

/-- C4: each categorical encoding is total: tabled strings get their tabled
codes, and every string outside the table gets the documented default
(chest pain 4, resting ECG 0, ST slope 2, thalassemia 3) instead of an
error. -/
theorem categorical_maps_total :
    (cp_map "Typical Angina" = 1 ∧ cp_map "Atypical Angina" = 2 ∧
     cp_map "Non-anginal Pain" = 3 ∧ cp_map "Asymptomatic" = 4 ∧
     ∀ s : String, s ∉ (["Typical Angina", "Atypical Angina",
        "Non-anginal Pain", "Asymptomatic"] : List String) → cp_map s = 4) ∧
    (restecg_map "Normal" = 0 ∧ restecg_map "ST-T abnormality" = 1 ∧
     restecg_map "LV hypertrophy" = 2 ∧
     ∀ s : String, s ∉ (["Normal", "ST-T abnormality", "LV hypertrophy"] :
        List String) → restecg_map s = 0) ∧
    (slope_map "Upsloping" = 1 ∧ slope_map "Flat" = 2 ∧
     slope_map "Downsloping" = 3 ∧
     ∀ s : String, s ∉ (["Upsloping", "Flat", "Downsloping"] :
        List String) → slope_map s = 2) ∧
    (thal_map "Normal" = 3 ∧ thal_map "Fixed Defect" = 6 ∧
     thal_map "Reversible Defect" = 7 ∧
     ∀ s : String, s ∉ (["Normal", "Fixed Defect", "Reversible Defect"] :
        List String) → thal_map s = 3) := by
  refine ⟨⟨by decide, by decide, by decide, by decide, fun s hs => ?_⟩,
          ⟨by decide, by decide, by decide, fun s hs => ?_⟩,
          ⟨by decide, by decide, by decide, fun s hs => ?_⟩,
          ⟨by decide, by decide, by decide, fun s hs => ?_⟩⟩
  · simp only [List.mem_cons, List.not_mem_nil, or_false, not_or] at hs
    obtain ⟨h1, h2, h3, h4⟩ := hs
    simp [cp_map, h1, h2, h3, h4]
  · simp only [List.mem_cons, List.not_mem_nil, or_false, not_or] at hs
    obtain ⟨h1, h2, h3⟩ := hs
    simp [restecg_map, h1, h2, h3]
  · simp only [List.mem_cons, List.not_mem_nil, or_false, not_or] at hs
    obtain ⟨h1, h2, h3⟩ := hs
    simp [slope_map, h1, h2, h3]
  · simp only [List.mem_cons, List.not_mem_nil, or_false, not_or] at hs
    obtain ⟨h1, h2, h3⟩ := hs
    simp [thal_map, h1, h2, h3]

/-- Witness for C4: the out-of-table string "Chest Tightness" gets the four
documented defaults. -/
theorem categorical_maps_total_witness :
    cp_map "Chest Tightness" = 4 ∧ restecg_map "Chest Tightness" = 0 ∧
    slope_map "Chest Tightness" = 2 ∧ thal_map "Chest Tightness" = 3 := by
  obtain ⟨⟨-, -, -, -, hcp⟩, ⟨-, -, -, hre⟩, ⟨-, -, -, hsl⟩, ⟨-, -, -, hth⟩⟩ :=
    categorical_maps_total
  exact ⟨hcp _ (by decide), hre _ (by decide), hsl _ (by decide),
    hth _ (by decide)⟩

/-- Sorting with `sortDesc` permutes its input. -/
theorem sortDesc_perm (l : List (String × ℚ)) : List.Perm (sortDesc l) l :=
  List.perm_insertionSort impGE l

/-- Sorting with `sortDesc` yields a list sorted descending by value. -/
theorem sortDesc_sorted (l : List (String × ℚ)) : (sortDesc l).Sorted impGE :=
  List.sorted_insertionSort impGE l

/-- Sorting with `sortDesc` preserves length. -/
theorem sortDesc_length (l : List (String × ℚ)) :
    (sortDesc l).length = l.length :=
  List.length_insertionSort impGE l

/-- There are 13 feature columns. -/
theorem FEATURE_COLUMNS_length : FEATURE_COLUMNS.length = 13 := rfl

/-- Shape facts for the extractor output on any importance vector of
length 13: the sorted zip has 13 entries, its keys are a permutation of the
column names, and its values all come from the vector. -/
theorem sortDesc_zip_shape (v : List ℚ) (hv : v.length = 13) :
    (sortDesc (FEATURE_COLUMNS.zip v)).length = 13 ∧
    List.Perm ((sortDesc (FEATURE_COLUMNS.zip v)).map Prod.fst) FEATURE_COLUMNS ∧
    ∀ p ∈ sortDesc (FEATURE_COLUMNS.zip v), p.2 ∈ v := by
  refine ⟨?_, ?_, ?_⟩
  · rw [sortDesc_length, List.length_zip, FEATURE_COLUMNS_length, hv]
    exact min_self 13
  · have h1 : List.Perm ((sortDesc (FEATURE_COLUMNS.zip v)).map Prod.fst)
        ((FEATURE_COLUMNS.zip v).map Prod.fst) :=
      (sortDesc_perm _).map Prod.fst
    rwa [List.map_fst_zip FEATURE_COLUMNS v
      (by rw [FEATURE_COLUMNS_length, hv])] at h1
  · intro p hp
    have hz : p ∈ FEATURE_COLUMNS.zip v := (sortDesc_perm _).mem_iff.mp hp
    obtain ⟨a, b⟩ := p
    exact (List.of_mem_zip hz).2

/-- C5: for every model handle, every mapping the Explanation Extractor
returns is sorted in descending order of score, the caller's truncation to
the first 5 entries has at most 5 entries, and every truncated-away score
is at most every kept score. -/
theorem extract_importance_sorted_top5 :
    ∀ (m : PyModel) (l : List (String × ℚ)),
      extract_feature_importance m = some l →
      l.Sorted impGE ∧ (l.take 5).length ≤ 5 ∧
      ∀ x ∈ l.take 5, ∀ y ∈ l.drop 5, y.2 ≤ x.2 := by
  intro m l hl
  obtain ⟨v, -, hv⟩ := Option.map_eq_some'.mp hl
  subst hv
  refine ⟨sortDesc_sorted _, List.length_take_le 5 _, ?_⟩
  have hs : (sortDesc (FEATURE_COLUMNS.zip v)).Pairwise impGE :=
    sortDesc_sorted _
  rw [← List.take_append_drop 5 (sortDesc (FEATURE_COLUMNS.zip v))] at hs
  intro x hx y hy
  exact (List.pairwise_append.mp hs).2.2 x hx y hy

/-- Witness for C5 at the attribute-free handle `noneModel`. -/
theorem extract_importance_sorted_top5_witness :
    (sortDesc (FEATURE_COLUMNS.zip
        (List.replicate FEATURE_COLUMNS.length 0))).Sorted impGE ∧
    ((sortDesc (FEATURE_COLUMNS.zip
        (List.replicate FEATURE_COLUMNS.length 0))).take 5).length ≤ 5 ∧
    ∀ x ∈ (sortDesc (FEATURE_COLUMNS.zip
        (List.replicate FEATURE_COLUMNS.length 0))).take 5,
      ∀ y ∈ (sortDesc (FEATURE_COLUMNS.zip
        (List.replicate FEATURE_COLUMNS.length 0))).drop 5, y.2 ≤ x.2 :=
  extract_importance_sorted_top5 noneModel _ rfl

/-- Dividing every list element by one constant divides the sum. -/
theorem sum_map_div (l : List ℚ) (S : ℚ) :
    (l.map fun x => x / S).sum = l.sum / S := by
  induction l with
  | nil => simp
  | cons a t ih => simp [ih, add_div]

/-- Entries of a list of absolute values are nonnegative. -/
theorem abs_list_nonneg (c0 : List ℚ) :
    ∀ z ∈ c0.map fun y => |y|, 0 ≤ z := by
  intro z hz
  obtain ⟨w, -, rfl⟩ := List.mem_map.mp hz
  exact abs_nonneg w

/-- A list with a nonzero entry has a positive sum of absolute values. -/
theorem abs_list_sum_pos (c0 : List ℚ) (hex : ∃ x ∈ c0, x ≠ 0) :
    0 < (c0.map fun y => |y|).sum := by
  obtain ⟨x, hx, hxne⟩ := hex
  have h1 : |x| ≤ (c0.map fun y => |y|).sum :=
    List.single_le_sum (abs_list_nonneg c0) _ (List.mem_map_of_mem _ hx)
  exact lt_of_lt_of_le (abs_pos.mpr hxne) h1

/-- C6: for each of the three model families — native importances of the
documented shape (13 nonnegative entries), a linear model whose
coefficient row 0 has 13 entries, or a model exposing neither attribute —
the extractor returns exactly 13 entries, one per feature name, all
nonnegative; and with neither attribute every entry is 0. -/
theorem extract_importance_thirteen_nonneg :
    ∀ m : PyModel,
      (∀ fi, (unwrap m).feature_importances = some fi → fi.length = 13 →
        (∀ x ∈ fi, 0 ≤ x) →
        ∃ l, extract_feature_importance m = some l ∧ l.length = 13 ∧
          List.Perm (l.map Prod.fst) FEATURE_COLUMNS ∧ ∀ p ∈ l, 0 ≤ p.2) ∧
      (∀ (c0 : List ℚ) (rest : List (List ℚ)),
        (unwrap m).feature_importances = none →
        (unwrap m).coef = some (c0 :: rest) → c0.length = 13 →
        ∃ l, extract_feature_importance m = some l ∧ l.length = 13 ∧
          List.Perm (l.map Prod.fst) FEATURE_COLUMNS ∧ ∀ p ∈ l, 0 ≤ p.2) ∧
      ((unwrap m).feature_importances = none → (unwrap m).coef = none →
        ∃ l, extract_feature_importance m = some l ∧ l.length = 13 ∧
          List.Perm (l.map Prod.fst) FEATURE_COLUMNS ∧ ∀ p ∈ l, p.2 = 0) := by
  intro m
  refine ⟨?_, ?_, ?_⟩
  · intro fi hfi hlen hnn
    have himp : importance_of (unwrap m) = some fi := by
      unfold importance_of; rw [hfi]
    obtain ⟨hL, hP, hM⟩ := sortDesc_zip_shape fi hlen
    exact ⟨_, by simp [extract_feature_importance, himp], hL, hP,
      fun p hp => hnn _ (hM p hp)⟩
  · intro c0 rest hfi hcoef hlen
    have himp : importance_of (unwrap m) = some ((c0.map fun y => |y|).map
        fun x => x / (c0.map fun y => |y|).sum) := by
      unfold importance_of; rw [hfi, hcoef]
    have hlen2 : ((c0.map fun y => |y|).map
        fun x => x / (c0.map fun y => |y|).sum).length = 13 := by
      simp [hlen]
    obtain ⟨hL, hP, hM⟩ := sortDesc_zip_shape _ hlen2
    refine ⟨_, by simp [extract_feature_importance, himp], hL, hP, ?_⟩
    intro p hp
    obtain ⟨x, hx, hxp⟩ := List.mem_map.mp (hM p hp)
    rw [← hxp]
    exact div_nonneg (abs_list_nonneg c0 x hx)
      (List.sum_nonneg (abs_list_nonneg c0))
  · intro hfi hcoef
    have himp : importance_of (unwrap m)
        = some (List.replicate FEATURE_COLUMNS.length 0) := by
      unfold importance_of; rw [hfi, hcoef]
    obtain ⟨hL, hP, hM⟩ := sortDesc_zip_shape
      (List.replicate FEATURE_COLUMNS.length 0)
      (by rw [List.length_replicate, FEATURE_COLUMNS_length])
    refine ⟨_, by simp [extract_feature_importance, himp], hL, hP, ?_⟩
    intro p hp
    exact List.eq_of_mem_replicate (hM p hp)

/-- Witness for C6 at the native-importance handle `treeModel`. -/
theorem extract_importance_thirteen_nonneg_witness :
    ∃ l, extract_feature_importance treeModel = some l ∧ l.length = 13 ∧
      List.Perm (l.map Prod.fst) FEATURE_COLUMNS ∧ ∀ p ∈ l, 0 ≤ p.2 :=
  (extract_importance_thirteen_nonneg treeModel).1 treeFi rfl (by decide)
    (by decide)

/-- C7 (amended): for a model exposing linear coefficients and no native
importances, whose coefficient row 0 has 13 entries at least one of which
is nonzero, each feature's score is the absolute coefficient divided by
the sum of the 13 absolute coefficients, and the 13 scores sum to 1.  The
nonzero hypothesis is forced by the all-zero counterexample. -/
theorem extract_importance_linear_l1 :
    ∀ (m : PyModel) (c0 : List ℚ) (rest : List (List ℚ)),
      (unwrap m).feature_importances = none →
      (unwrap m).coef = some (c0 :: rest) →
      c0.length = 13 →
      (∃ x ∈ c0, x ≠ 0) →
      ∃ l, extract_feature_importance m = some l ∧
        List.Perm l (FEATURE_COLUMNS.zip
          (c0.map fun x => |x| / (c0.map fun y => |y|).sum)) ∧
        (l.map Prod.snd).sum = 1 := by
  intro m c0 rest hfi hcoef hlen hex
  have hSne : (c0.map fun y => |y|).sum ≠ 0 :=
    ne_of_gt (abs_list_sum_pos c0 hex)
  have himp : importance_of (unwrap m) = some ((c0.map fun y => |y|).map
      fun x => x / (c0.map fun y => |y|).sum) := by
    unfold importance_of; rw [hfi, hcoef]
  have hext : extract_feature_importance m
      = some (sortDesc (FEATURE_COLUMNS.zip ((c0.map fun y => |y|).map
          fun x => x / (c0.map fun y => |y|).sum))) := by
    unfold extract_feature_importance
    rw [himp]
    rfl
  have hvv : (c0.map fun y => |y|).map
      (fun x => x / (c0.map fun y => |y|).sum)
      = c0.map fun x => |x| / (c0.map fun y => |y|).sum := by
    rw [List.map_map]
    rfl
  refine ⟨sortDesc (FEATURE_COLUMNS.zip ((c0.map fun y => |y|).map
      fun x => x / (c0.map fun y => |y|).sum)), hext, ?_, ?_⟩
  · rw [hvv]
    exact sortDesc_perm _
  · have hperm := (sortDesc_perm (FEATURE_COLUMNS.zip
      ((c0.map fun y => |y|).map
        fun x => x / (c0.map fun y => |y|).sum))).map Prod.snd
    rw [hperm.sum_eq, List.map_snd_zip FEATURE_COLUMNS _
        (by rw [List.length_map, List.length_map, hlen, FEATURE_COLUMNS_length]),
      sum_map_div, div_self hSne]

/-- Witness for C7's amended theorem at the concrete linear handle. -/
theorem extract_importance_linear_l1_witness :
    ∃ l, extract_feature_importance linearModel = some l ∧
      List.Perm l (FEATURE_COLUMNS.zip
        (linCoef.map fun x => |x| / (linCoef.map fun y => |y|).sum)) ∧
      (l.map Prod.snd).sum = 1 :=
  extract_importance_linear_l1 linearModel linCoef [] rfl rfl rfl
    ⟨1, by decide, by decide⟩

/-- Counterexample to C7 as stated: the all-zero coefficient row reaches
the linear branch, yet the extracted scores sum to 0, not 1. -/
theorem extract_importance_linear_l1_cex :
    (unwrap zeroLinearModel).feature_importances = none ∧
    (unwrap zeroLinearModel).coef = some [List.replicate 13 0] ∧
    ∃ l, extract_feature_importance zeroLinearModel = some l ∧
      (l.map Prod.snd).sum = 0 ∧ ¬ (l.map Prod.snd).sum = 1 := by
  have hzip : (FEATURE_COLUMNS.zip (List.replicate 13 (0 : ℚ))).map Prod.snd
      = List.replicate 13 0 :=
    List.map_snd_zip FEATURE_COLUMNS _
      (by rw [List.length_replicate, FEATURE_COLUMNS_length])
  have hsum : ((sortDesc (FEATURE_COLUMNS.zip
      (List.replicate 13 (0 : ℚ)))).map Prod.snd).sum = 0 := by
    have hperm := (sortDesc_perm (FEATURE_COLUMNS.zip
      (List.replicate 13 (0 : ℚ)))).map Prod.snd
    rw [hperm.sum_eq, hzip, List.sum_replicate, smul_zero]
  refine ⟨rfl, rfl, sortDesc (FEATURE_COLUMNS.zip (List.replicate 13 0)),
    ?_, hsum, by rw [hsum]; norm_num⟩
  have h : extract_feature_importance zeroLinearModel
      = some (sortDesc (FEATURE_COLUMNS.zip
        (((List.replicate 13 (0 : ℚ)).map fun x => |x|).map
          fun x => x / ((List.replicate 13 (0 : ℚ)).map fun x => |x|).sum))) :=
    rfl
  rw [h]
  norm_num [List.map_replicate]

/-- C10 (amended): the L1-normalizing division of the linear branch has a
nonzero denominator whenever the coefficient row is not identically zero,
and the extractor output is exactly the sorted zip of the feature names
with the normalized absolute coefficients.  The nonzero hypothesis is
forced by the all-zero counterexample. -/
theorem linear_branch_sum_ne_zero :
    ∀ (m : PyModel) (c0 : List ℚ) (rest : List (List ℚ)),
      (unwrap m).feature_importances = none →
      (unwrap m).coef = some (c0 :: rest) →
      (∃ x ∈ c0, x ≠ 0) →
      (c0.map fun y => |y|).sum ≠ 0 ∧
      extract_feature_importance m =
        some (sortDesc (FEATURE_COLUMNS.zip ((c0.map fun y => |y|).map
          fun x => x / (c0.map fun y => |y|).sum))) := by
  intro m c0 rest hfi hcoef hex
  have himp : importance_of (unwrap m) = some ((c0.map fun y => |y|).map
      fun x => x / (c0.map fun y => |y|).sum) := by
    unfold importance_of; rw [hfi, hcoef]
  exact ⟨ne_of_gt (abs_list_sum_pos c0 hex),
    by simp [extract_feature_importance, himp]⟩

/-- Witness for C10's amended theorem at the concrete linear handle. -/
theorem linear_branch_sum_ne_zero_witness :
    (linCoef.map fun y => |y|).sum ≠ 0 ∧
    extract_feature_importance linearModel =
      some (sortDesc (FEATURE_COLUMNS.zip ((linCoef.map fun y => |y|).map
        fun x => x / (linCoef.map fun y => |y|).sum))) :=
  linear_branch_sum_ne_zero linearModel linCoef [] rfl rfl
    ⟨1, by decide, by decide⟩

/-- Counterexample to C10 as stated: a model with an all-zero coefficient
row reaches the linear branch with denominator `sum = 0`; nothing in the
code prevents it. -/
theorem linear_branch_sum_zero_cex :
    (unwrap zeroLinearModel).feature_importances = none ∧
    (unwrap zeroLinearModel).coef = some [List.replicate 13 0] ∧
    ((List.replicate 13 (0 : ℚ)).map fun y => |y|).sum = 0 :=
  ⟨rfl, rfl, by rw [List.map_replicate, abs_zero, List.sum_replicate, smul_zero]⟩

/-- C8: whenever the model is found but prediction or importance
extraction raises, the handler surfaces "Prediction failed." and returns
the session state exactly as it was: the `analysis_run` flag, stored
probability and stored importance map are untouched. -/
theorem run_handler_failure_preserves_state :
    ∀ (all_models : List (String × PyModel)) (model_name : String)
      (age : ℚ) (gender cp : String) (trestbps chol glucose : ℚ)
      (restecg : String) (thalach : ℚ) (exang : String) (oldpeak : ℚ)
      (slope : String) (ca : ℚ) (thal : String) (s : SessionState)
      (model : PyModel),
      all_models.lookup model_name = some model →
      (predict_risk model (preprocess_inputs age gender cp trestbps chol
        glucose restecg thalach exang oldpeak slope ca thal) = none ∨
       extract_feature_importance model = none) →
      run_handler all_models model_name age gender cp trestbps chol glucose
        restecg thalach exang oldpeak slope ca thal s
        = (s, some "Prediction failed.") := by
  intro am name age gender cp trestbps chol glucose restecg thalach exang
    oldpeak slope ca thal s model hlook hfail
  unfold run_handler
  rw [hlook]
  rcases hfail with hf | hf
  · cases he : extract_feature_importance model <;> simp [hf, he]
  · cases hp : predict_risk model (preprocess_inputs age gender cp trestbps
      chol glucose restecg thalach exang oldpeak slope ca thal) <;>
      simp [hp, hf]

/-- Witness for C8: a handle whose `predict_proba` raises leaves the fresh
session state untouched and surfaces the failure message. -/
theorem run_handler_failure_preserves_state_witness :
    run_handler [("Logistic Regression", noneModel)] "Logistic Regression"
      45 "Male" "Typical Angina" 120 190 100 "Normal" 150 "No" 1 "Upsloping"
      0 "Normal" initState = (initState, some "Prediction failed.") :=
  run_handler_failure_preserves_state _ _ _ _ _ _ _ _ _ _ _ _ _ _ _
    initState noneModel rfl (Or.inl rfl)

/-- Every run of the button handler either fails, leaving any state
unchanged and showing a message, or succeeds, storing one evaluated result
that does not depend on the prior state. -/
theorem run_handler_outcome (am : List (String × PyModel)) (name : String)
    (age : ℚ) (gender cp : String) (trestbps chol glucose : ℚ)
    (restecg : String) (thalach : ℚ) (exang : String) (oldpeak : ℚ)
    (slope : String) (ca : ℚ) (thal : String) :
    (∃ msg, ∀ s, run_handler am name age gender cp trestbps chol glucose
        restecg thalach exang oldpeak slope ca thal s = (s, some msg)) ∨
    (∃ r, r.analysis_run = true ∧ ∀ s, run_handler am name age gender cp
        trestbps chol glucose restecg thalach exang oldpeak slope ca thal s
        = (r, none)) := by
  cases hlook : am.lookup name with
  | none =>
    refine Or.inl ⟨"Model not loaded properly.", fun s => ?_⟩
    unfold run_handler
    rw [hlook]
  | some model =>
    cases hp : predict_risk model (preprocess_inputs age gender cp trestbps
        chol glucose restecg thalach exang oldpeak slope ca thal) with
    | none =>
      refine Or.inl ⟨"Prediction failed.", fun s => ?_⟩
      unfold run_handler
      rw [hlook]
      cases he : extract_feature_importance model <;> simp [hp, he]
    | some prob =>
      cases he : extract_feature_importance model with
      | none =>
        refine Or.inl ⟨"Prediction failed.", fun s => ?_⟩
        unfold run_handler
        rw [hlook]
        simp [hp, he]
      | some importance =>
        refine Or.inr ⟨⟨true, prob, importance.take 5⟩, rfl, fun s => ?_⟩
        unfold run_handler
        rw [hlook]
        simp [hp, he]

/-- C9: per session the only meaningful transition is idle → evaluated:
a widget interaction or failed run leaves the state exactly as it was, a
successful run stores one evaluated result independent of the prior state,
`analysis_run` never goes back to `false`, and over any action sequence the
session ends evaluated iff some run action succeeded. -/
theorem session_state_machine :
    ∀ am : List (String × PyModel),
      (∀ a s, s.analysis_run = true → (step am a s).analysis_run = true) ∧
      (∀ a s, runSucceeds am a = false → step am a s = s) ∧
      (∀ a s s', runSucceeds am a = true →
        (step am a s).analysis_run = true ∧ step am a s' = step am a s) ∧
      (∀ acts, (runSession am acts).analysis_run = true ↔
        ∃ a ∈ acts, runSucceeds am a = true) := by
  intro am
  have key : ∀ a, (runSucceeds am a = false ∧ ∀ s, step am a s = s) ∨
      (runSucceeds am a = true ∧
        ∃ r, r.analysis_run = true ∧ ∀ s, step am a s = r) := by
    intro a
    cases a with
    | interact => exact Or.inl ⟨rfl, fun s => rfl⟩
    | run name age gender cp trestbps chol glucose restecg thalach exang
        oldpeak slope ca thal =>
      rcases run_handler_outcome am name age gender cp trestbps chol glucose
          restecg thalach exang oldpeak slope ca thal with
        ⟨msg, hmsg⟩ | ⟨r, hr, hrun⟩
      · refine Or.inl ⟨?_, fun s => ?_⟩
        · show (run_handler am name age gender cp trestbps chol glucose
            restecg thalach exang oldpeak slope ca thal initState).2.isNone
            = false
          rw [hmsg initState]
          rfl
        · show (run_handler am name age gender cp trestbps chol glucose
            restecg thalach exang oldpeak slope ca thal s).1 = s
          rw [hmsg s]
      · refine Or.inr ⟨?_, r, hr, fun s => ?_⟩
        · show (run_handler am name age gender cp trestbps chol glucose
            restecg thalach exang oldpeak slope ca thal initState).2.isNone
            = true
          rw [hrun initState]
          rfl
        · show (run_handler am name age gender cp trestbps chol glucose
            restecg thalach exang oldpeak slope ca thal s).1 = r
          rw [hrun s]
  have hfold : ∀ (acts : List Action) (s : SessionState),
      (List.foldl (fun t a => step am a t) s acts).analysis_run = true ↔
        (s.analysis_run = true ∨ ∃ a ∈ acts, runSucceeds am a = true) := by
    intro acts
    induction acts with
    | nil => intro s; simp
    | cons a t ih =>
      intro s
      rw [List.foldl_cons, ih]
      rcases key a with ⟨hf, hid⟩ | ⟨hsucc, r, hr, hstep⟩
      · rw [hid s]
        constructor
        · rintro (hs | ⟨b, hb, hsb⟩)
          · exact Or.inl hs
          · exact Or.inr ⟨b, List.mem_cons_of_mem a hb, hsb⟩
        · rintro (hs | ⟨b, hb, hsb⟩)
          · exact Or.inl hs
          · rcases List.mem_cons.mp hb with rfl | hb'
            · rw [hf] at hsb
              cases hsb
            · exact Or.inr ⟨b, hb', hsb⟩
      · rw [hstep s]
        exact iff_of_true (Or.inl hr)
          (Or.inr ⟨a, List.mem_cons_self a t, hsucc⟩)
  refine ⟨?_, ?_, ?_, ?_⟩
  · intro a s hs
    rcases key a with ⟨-, hid⟩ | ⟨-, r, hr, hstep⟩
    · rw [hid s]; exact hs
    · rw [hstep s]; exact hr
  · intro a s hfail
    rcases key a with ⟨-, hid⟩ | ⟨hsucc, -⟩
    · exact hid s
    · rw [hsucc] at hfail
      cases hfail
  · intro a s s' hsucc
    rcases key a with ⟨hf, -⟩ | ⟨-, r, hr, hstep⟩
    · rw [hf] at hsucc
      cases hsucc
    · exact ⟨by rw [hstep s]; exact hr, by rw [hstep s', hstep s]⟩
  · intro acts
    unfold runSession
    rw [hfold acts initState]
    simp [initState]

/-- Witness for C9: a widget interaction keeps the fresh state, and the
evaluated flag persists through further interactions. -/
theorem session_state_machine_witness :
    step [] Action.interact initState = initState ∧
    (step [] Action.interact ⟨true, 0, []⟩).analysis_run = true := by
  obtain ⟨hmono, hfail, -, -⟩ := session_state_machine []
  exact ⟨hfail Action.interact initState rfl,
    hmono Action.interact ⟨true, 0, []⟩ rfl⟩

end MediRisk
